import Mathlib

/-!
# BB-Browser: verification of the instance/session/workflow core

A shallow embedding of the lifecycle core of the BB-Browser repository:

* `SessionManager` (src/session/SessionManager.ts) — durable name-indexed
  persistence of session records on a file-system modelled as an association
  list from file names to file contents;
* `BrowserInstance` (src/core/BrowserInstance.ts) — launch/close lifecycle and
  session injection of one engine session; the engine (Playwright) is an
  external collaborator, so its success or failure at launch/close time enters
  the model as explicit boolean parameters (`engineOk`, `closeFails`), and the
  engine-visible effect of injecting a session is recorded in an `injected` log;
* `BrowserManager` (src/core/BrowserManager.ts) — the name-keyed registry of
  instances (`create`, `closeAll`, `createWithSession`, session fan-out);
* `BaseSiteWorkflow.login` / `loadSession` (src/workflows/BaseSiteWorkflow.ts)
  — the bounded login polling loop and session rehydration;
* `WorkflowManager.getWorkflow` (src/workflows/WorkflowManager.ts) — workflow
  resolution by exact tag match with substring fallback, and per-site caching.

JavaScript `Map`s are modelled as association lists in insertion order, with
`alLookup` / `alSet` reproducing `Map.get` / `Map.set`.  Thrown exceptions are
modelled with `Except String`; operations that mutate an object and may also
throw return a pair of the final state and the `Except` outcome.  Wall-clock
time in the login loop is counted in milliseconds with the `isLoggedIn` checks
taken as instantaneous, so each loop iteration advances time by exactly the
sleep interval.  Event emission, timestamps and the page/navigation layer of
the engine are elided: no claim below depends on them.
-/

/-! ## Association lists modelling JavaScript `Map` (insertion order) -/

/-- `Map.get`: first entry with the given key (keys are unique in a `Map`). -/
def alLookup {α : Type} (l : List (String × α)) (k : String) : Option α :=
  match l with
  | [] => none
  | (k', v) :: t => if k' == k then some v else alLookup t k

/-- `Map.set`: replace in place if the key is present, else append. -/
def alSet {α : Type} (l : List (String × α)) (k : String) (v : α) :
    List (String × α) :=
  match l with
  | [] => [(k, v)]
  | (k', v') :: t => if k' == k then (k, v) :: t else (k', v') :: alSet t k v

/-- `Except.isOk` as a plain definition, to observe whether a call threw. -/
def exceptOk {ε α : Type} : Except ε α → Bool
  | .ok _ => true
  | .error _ => false

/-! ## Character-list helpers for JavaScript string operations -/

/-- Whether `pat` is an initial segment of `l`. -/
def isPrefixL (pat l : List Char) : Bool :=
  match pat, l with
  | [], _ => true
  | _ :: _, [] => false
  | p :: ps, c :: cs => p == c && isPrefixL ps cs

/-- Whether `pat` is a final segment of `l`, as in `String.prototype.endsWith`. -/
def isSuffixL (pat l : List Char) : Bool :=
  isPrefixL pat.reverse l.reverse

/-- `String.prototype.replace` with a string pattern replaces only the first
occurrence of `pat` (by `rep`). -/
def replaceFirstL (pat rep : List Char) : List Char → List Char
  | [] => if isPrefixL pat [] then rep else []
  | c :: cs =>
    if isPrefixL pat (c :: cs) then rep ++ (c :: cs).drop pat.length
    else c :: replaceFirstL pat rep cs

/-- `String.prototype.includes`: `needle` occurs contiguously in `hay`. -/
def containsL (hay needle : List Char) : Bool :=
  match hay with
  | [] => isPrefixL needle []
  | _ :: t => isPrefixL needle hay || containsL t needle

/-- `siteId.includes(typeTag)` on Lean strings. -/
def strContains (hay needle : String) : Bool :=
  containsL hay.data needle.data

/-! ## SessionManager (src/session/SessionManager.ts)

The sessions directory is modelled as an association list from file names
(relative to the directory, whose constant path prefix is elided) to file
contents.  A content is either a well-formed serialized record or corrupt data
on which `JSON.parse` throws. -/

/-- `SessionData` (src/types/index.ts); Playwright cookies are abstracted to
name/value pairs and have no bearing on the claims. -/
structure SessionData where
  name : String
  browserName : String
  cookies : List (String × String)
  localStorage : List (String × String)
  sessionStorage : List (String × String)
  url : String
  createdAt : String
  updatedAt : String
deriving DecidableEq

/-- Contents of one stored session file. -/
inductive FileContent where
  /-- A well-formed serialized `SessionData` record. -/
  | valid (s : SessionData)
  /-- Content on which deserialization (`JSON.parse`) throws. -/
  | corrupt
deriving DecidableEq

/-- The sessions directory: file name to content, insertion order. -/
def SessionsFS : Type := List (String × FileContent)

/-- A character allowed by the sanitizer regex `[a-zA-Z0-9_-]`. -/
def isAllowedChar (c : Char) : Bool :=
  (decide (97 ≤ c.toNat) && decide (c.toNat ≤ 122)) ||
  (decide (65 ≤ c.toNat) && decide (c.toNat ≤ 90)) ||
  (decide (48 ≤ c.toNat) && decide (c.toNat ≤ 57)) ||
  c.toNat == 95 || c.toNat == 45

/-- One step of `name.replace(/[^a-zA-Z0-9_-]/g, '_')`. -/
def sanChar (c : Char) : Char :=
  if isAllowedChar c then c else '_'

/-- The sanitized session name (`safeName` in `getSessionPath`). -/
def sanitizeName (s : String) : String :=
  String.mk (s.data.map sanChar)

/-- The extension appended by `getSessionPath` and stripped by `list`. -/
def jsonExt : String := ".json"

/-- `getSessionPath`, minus the constant directory prefix added by `join`:
the file name under which a session of the given name is stored. -/
def getSessionFile (name : String) : String :=
  String.mk ((sanitizeName name).data ++ jsonExt.data)

/-- `SessionManager.save`: serialize and write (creating the directory is a
no-op in the model); an existing file under the same derived name is
overwritten. -/
def SessionManager.save (fs : SessionsFS) (s : SessionData) : SessionsFS :=
  alSet fs (getSessionFile s.name) (.valid s)

/-- `SessionManager.load`: `null` if the file is absent; read and parse inside
a `try` whose `catch` returns `null`, so a corrupt file is also `null` and the
parse failure never escapes. -/
def SessionManager.load (fs : SessionsFS) (name : String) :
    Except String (Option SessionData) :=
  match alLookup fs (getSessionFile name) with
  | none => .ok none
  | some .corrupt => .ok none
  | some (.valid s) => .ok (some s)

/-- `SessionManager.list`: read the directory, keep the `.json` files, and
strip the extension with `file.replace('.json', '')` — i.e. the names returned
are the sanitized file stems, not the original session names. -/
def SessionManager.list (fs : SessionsFS) : List String :=
  ((fs.map Prod.fst).filter (fun f => isSuffixL jsonExt.data f.data)).map
    (fun f => String.mk (replaceFirstL jsonExt.data [] f.data))

/-! ## BrowserInstance (src/core/BrowserInstance.ts)

The Playwright engine is an external collaborator.  Whether its calls succeed
enters the model as explicit parameters: `engineOk` is the outcome of the
`chromium.launch` call inside `launch()`, and the per-instance flag
`closeFails` is the outcome the engine will produce for `browser.close()`.
The engine-visible effect of `injectSession` (cookies and storage written,
page reloaded) is abstracted into the `injected` log of applied records. -/

/-- `BrowserStatus` (src/types/index.ts). -/
inductive BrowserStatus where
  | launching
  | ready
  | busy
  | closed
  | error
deriving DecidableEq

/-- `BrowserInstanceConfig` (src/types/index.ts); the proxy and viewport
options are passed through to the engine untouched and are elided. -/
structure BrowserInstanceConfig where
  name : String
  headless : Option Bool := none
deriving DecidableEq

/-- Runtime state of one `BrowserInstance`.  `browserLive` models whether the
private `browser` field is non-null; `closeFails` is the engine's behaviour at
`browser.close()` time; `injected` logs the session records applied by
`injectSession`. -/
structure BrowserInstance where
  name : String
  headless : Bool
  status : BrowserStatus
  browserLive : Bool
  closeFails : Bool
  injected : List SessionData
deriving DecidableEq

/-- The `BrowserInstance` constructor: stores the config (headless defaulting
to `false`), status starts `closed`, no engine attached. -/
def BrowserInstance.make (cfg : BrowserInstanceConfig) (closeFails : Bool) :
    BrowserInstance :=
  { name := cfg.name
    headless := cfg.headless.getD false
    status := .closed
    browserLive := false
    closeFails := closeFails
    injected := [] }

/-- `BrowserInstance.launch`: throws at once if the browser is already
launched (before touching the status); otherwise sets status `launching` and
calls the engine inside a `try` — on success the status becomes `ready`, on
engine failure the `catch` sets status `error` and rethrows. -/
def BrowserInstance.launch (i : BrowserInstance) (engineOk : Bool) :
    BrowserInstance × Except String Unit :=
  if i.browserLive then
    (i, .error ("Browser \"" ++ i.name ++ "\" is already launched"))
  else
    if engineOk then
      ({ i with browserLive := true, status := .ready }, .ok ())
    else
      ({ i with status := .error }, .error "engine launch failed")

/-- `BrowserInstance.close`: a no-op when the browser is not launched;
otherwise closes the engine session — on success the browser field is
cleared, pages dropped and status set `closed`; if the engine close rejects
the error propagates with the fields untouched. -/
def BrowserInstance.close (i : BrowserInstance) :
    BrowserInstance × Except String Unit :=
  if i.browserLive then
    if i.closeFails then (i, .error "engine close failed")
    else ({ i with browserLive := false, status := .closed }, .ok ())
  else (i, .ok ())

/-- `BrowserInstance.injectSession`: throws if not launched; otherwise writes
cookies and storage and reloads (abstracted into the `injected` log). -/
def BrowserInstance.injectSession (i : BrowserInstance) (s : SessionData) :
    BrowserInstance × Except String Unit :=
  if i.browserLive then
    ({ i with injected := i.injected ++ [s] }, .ok ())
  else
    (i, .error ("Browser \"" ++ i.name ++ "\" is not launched"))

/-! ## BrowserManager (src/core/BrowserManager.ts) -/

/-- The instance registry: `Map<string, BrowserInstance>` in insertion
order.  The manager's event emission is elided. -/
structure BrowserManager where
  instances : List (String × BrowserInstance)
deriving DecidableEq

/-- `BrowserManager.has`. -/
def BrowserManager.has (m : BrowserManager) (name : String) : Bool :=
  (alLookup m.instances name).isSome

/-- `BrowserManager.create`: throws on a duplicate name; otherwise constructs
the instance, wires its events, awaits `launch()`, and only then registers it
— a launch failure propagates with the registry untouched. -/
def BrowserManager.create (m : BrowserManager) (cfg : BrowserInstanceConfig)
    (engineOk closeFails : Bool) :
    BrowserManager × Except String BrowserInstance :=
  if m.has cfg.name then
    (m, .error ("Browser instance \"" ++ cfg.name ++ "\" already exists"))
  else
    match (BrowserInstance.make cfg closeFails).launch engineOk with
    | (_, .error e) => (m, .error e)
    | (inst, .ok _) =>
      (⟨m.instances ++ [(cfg.name, inst)]⟩, .ok inst)

/-- `BrowserManager.closeAll`: maps every registered entry to an eagerly
started close task, so each instance's `close()` is issued regardless of the
others, and the per-instance final states are reached independently.  The
tasks are joined with `Promise.all`: when every close resolves, the registry
is cleared; when any close rejects, the joint await rethrows (the surfaced
reason is the earliest rejection — modelled as the first in iteration order)
and the line clearing the registry is never reached. -/
def BrowserManager.closeAll (m : BrowserManager) :
    BrowserManager × Except String Unit :=
  let results := m.instances.map (fun p => (p.1, p.2.close))
  if results.all (fun p => exceptOk p.2.2) then
    (⟨[]⟩, .ok ())
  else
    (⟨results.map (fun p => (p.1, p.2.1))⟩,
      .error "one of the instance closes rejected")

/-- `BrowserManager.loadSession`: look the instance up (`getOrThrow`), load
the record, throw "not found" if the store has nothing by that name, else
inject it into the instance. -/
def BrowserManager.loadSession (m : BrowserManager) (fs : SessionsFS)
    (browserName sessionName : String) : BrowserManager × Except String Unit :=
  match alLookup m.instances browserName with
  | none =>
    (m, .error ("Browser instance \"" ++ browserName ++ "\" not found"))
  | some inst =>
    match SessionManager.load fs sessionName with
    | .error e => (m, .error e)
    | .ok none =>
      (m, .error ("Session \"" ++ sessionName ++ "\" not found"))
    | .ok (some s) =>
      match inst.injectSession s with
      | (inst', .ok _) => (⟨alSet m.instances browserName inst'⟩, .ok ())
      | (inst', .error e) =>
        (⟨alSet m.instances browserName inst'⟩, .error e)

/-- `BrowserManager.listSessions`: delegates to `SessionManager.list`. -/
def BrowserManager.listSessions (fs : SessionsFS) : List String :=
  SessionManager.list fs

/-- `BrowserManager.createWithSession`: create (and launch) the instance,
then load the named session; a missing session is skipped silently and the
fresh instance is returned; an existing record is injected. -/
def BrowserManager.createWithSession (m : BrowserManager) (fs : SessionsFS)
    (cfg : BrowserInstanceConfig) (sessionName : String)
    (engineOk closeFails : Bool) : BrowserManager × Except String BrowserInstance :=
  match m.create cfg engineOk closeFails with
  | (m1, .error e) => (m1, .error e)
  | (m1, .ok inst) =>
    match SessionManager.load fs sessionName with
    | .error e => (m1, .error e)
    | .ok none => (m1, .ok inst)
    | .ok (some s) =>
      match inst.injectSession s with
      | (inst', .ok _) => (⟨alSet m1.instances cfg.name inst'⟩, .ok inst')
      | (inst', .error e) => (⟨alSet m1.instances cfg.name inst'⟩, .error e)

/-! ## BaseSiteWorkflow (src/workflows/BaseSiteWorkflow.ts)

`login()` polls the abstract, site-specific `isLoggedIn()` predicate.  Each
call of the predicate is a fresh observation of the page, so the predicate is
modelled as a function of the call counter: `isL j` is what the `(j+1)`-th
call of `isLoggedIn()` during this `login()` returns (call `0` is the check
before the loop).  Time is in milliseconds; the checks and the navigation are
taken as instantaneous, so the loop's elapsed clock advances by exactly
`pollIntervalMs` per iteration (a lower bound on real elapsed time, which
only shortens the real window).  `navigateToLogin` touches only the page and
neither the polled predicate nor the result, so it is elided. -/

/-- `WorkflowResult<void>` (src/types/index.ts); the wall-clock `timestamp`
field is elided. -/
structure WorkflowResultV where
  success : Bool
  error : Option String := none
deriving DecidableEq

/-- What a finished `login()` produced: the returned result, and whether
`saveSession()` was invoked on the way. -/
structure LoginOutcome where
  result : WorkflowResultV
  savedSession : Bool
deriving DecidableEq

/-- `maxWaitMs = 5 * 60 * 1000` — the five-minute ceiling. -/
def maxWaitMs : Nat := 5 * 60 * 1000

/-- `pollIntervalMs = 2000` — the two-second poll interval. -/
def pollIntervalMs : Nat := 2000

/-- The timeout failure returned when the ceiling elapses. -/
def loginTimeoutResult : WorkflowResultV :=
  { success := false
    error := some "Login timeout - user did not complete login within 5 minutes" }

/-- The `while (Date.now() - startTime < maxWaitMs)` loop of `login()`:
`k` is the call counter of the next `isLoggedIn()` call and `elapsed` the
milliseconds since `startTime`.  A true reading saves the session and returns
success; otherwise the flow sleeps `pollIntervalMs` and retries; once the
ceiling is reached the timeout result is returned without saving. -/
def loginPoll (isL : Nat → Bool) (k : Nat) (elapsed : Nat) : LoginOutcome :=
  if elapsed < maxWaitMs then
    if isL k then { result := { success := true }, savedSession := true }
    else loginPoll isL (k + 1) (elapsed + pollIntervalMs)
  else { result := loginTimeoutResult, savedSession := false }
termination_by maxWaitMs - elapsed
decreasing_by simp only [maxWaitMs, pollIntervalMs] at *; omega

/-- `BaseSiteWorkflow.login`: `getPage()` throws when the workflow was never
initialized; otherwise navigate to the login surface, return success at once
(without saving) if `isLoggedIn()` is already true, else enter the bounded
polling loop. -/
def login (pageReady : Bool) (isL : Nat → Bool) : Except String LoginOutcome :=
  if pageReady then
    if isL 0 then .ok { result := { success := true }, savedSession := false }
    else .ok (loginPoll isL 1 0)
  else .error "Workflow not initialized. Call init() first."

/-- `BaseSiteWorkflow.loadSession` for a workflow of site id `siteId` whose
configured session name is `sessionName` (`none` models the `undefined`
field; the empty string is equally falsy in the guard).  It lists the saved
sessions, tests membership of the raw configured name in that list, and only
on a hit asks the manager to load and inject; everything after the guard sits
in a `try` whose `catch` falls through to `return false`. -/
def loadSessionW (m : BrowserManager) (fs : SessionsFS) (siteId : String)
    (sessionName : Option String) : BrowserManager × Bool :=
  match sessionName with
  | none => (m, false)
  | some sn =>
    if sn == "" then (m, false)
    else
      if (SessionManager.list fs).contains sn then
        match m.loadSession fs siteId sn with
        | (m', .ok _) => (m', true)
        | (m', .error _) => (m', false)
      else (m, false)

/-! ## WorkflowManager (src/workflows/WorkflowManager.ts)

The registry maps a site-type tag to a workflow class; classes are opaque to
the manager, so they are modelled as numeric tags.  Instantiating a class
pairs it with the site's config. -/

/-- `SiteConfig` for the purposes of workflow resolution. -/
structure SiteConfig where
  id : String
  displayName : String
  baseUrl : String
  sessionName : Option String := none
deriving DecidableEq

/-- One live workflow, as produced by `new WorkflowClass(config, manager)`. -/
structure WorkflowInst where
  classId : Nat
  config : SiteConfig
deriving DecidableEq

/-- The three maps of `WorkflowManager` (each in insertion order). -/
structure WorkflowManager where
  registry : List (String × Nat)
  configs : List (String × SiteConfig)
  instances : List (String × WorkflowInst)
deriving DecidableEq

/-- The "no configuration" error text of `getWorkflow`. -/
def noConfigMsg (siteId : String) : String :=
  "No configuration found for site \"" ++ siteId ++ "\". Call addSite() first."

/-- The "no workflow registered" error text of `getWorkflow`. -/
def noWorkflowMsg (siteId : String) (registry : List (String × Nat)) : String :=
  "No workflow registered for site \"" ++ siteId ++ "\". Registered types: " ++
    String.intercalate ", " (registry.map Prod.fst)

/-- The class-resolution step of `getWorkflow`: exact match of `siteId`
against the registered type tags first; on a miss, the `for`/`break` loop
selecting the first registered tag (in insertion order) with
`siteId.includes(type)`. -/
def resolveClass (wm : WorkflowManager) (siteId : String) : Option Nat :=
  match alLookup wm.registry siteId with
  | some c => some c
  | none => (wm.registry.find? (fun p => strContains siteId p.1)).map Prod.snd

/-- `WorkflowManager.getWorkflow`: return the cached instance when present;
else require a stored config; resolve the class with `resolveClass`;
instantiate and cache on success. -/
def WorkflowManager.getWorkflow (wm : WorkflowManager) (siteId : String) :
    WorkflowManager × Except String WorkflowInst :=
  match alLookup wm.instances siteId with
  | some inst => (wm, .ok inst)
  | none =>
    match alLookup wm.configs siteId with
    | none => (wm, .error (noConfigMsg siteId))
    | some config =>
      match resolveClass wm siteId with
      | none => (wm, .error (noWorkflowMsg siteId wm.registry))
      | some cls =>
        let inst : WorkflowInst := { classId := cls, config := config }
        ({ wm with instances := wm.instances ++ [(siteId, inst)] }, .ok inst)

/-! ## Helper lemmas -/

theorem alLookup_alSet_self {α : Type} (l : List (String × α)) (k : String)
    (v : α) : alLookup (alSet l k v) k = some v := by
  induction l with
  | nil => simp [alSet, alLookup]
  | cons p t ih =>
    obtain ⟨k', v'⟩ := p
    by_cases h : k' = k
    · subst h; simp [alSet, alLookup]
    · simp only [alSet, alLookup, beq_iff_eq, if_neg h, ih]

theorem alLookup_append_singleton {α : Type} (l : List (String × α))
    (k : String) (v : α) (h : alLookup l k = none) :
    alLookup (l ++ [(k, v)]) k = some v := by
  induction l with
  | nil => simp [alLookup]
  | cons p t ih =>
    obtain ⟨k', v'⟩ := p
    by_cases hk : k' = k
    · simp [alLookup, hk] at h
    · simp only [alLookup, beq_iff_eq, if_neg hk] at h
      simpa only [List.cons_append, alLookup, beq_iff_eq, if_neg hk] using ih h

theorem isPrefixL_self_append (a b : List Char) :
    isPrefixL a (a ++ b) = true := by
  induction a with
  | nil => rfl
  | cons c cs ih => simp [isPrefixL, ih]

theorem isSuffixL_append_self (p l : List Char) :
    isSuffixL p (l ++ p) = true := by
  unfold isSuffixL
  rw [List.reverse_append]
  exact isPrefixL_self_append _ _

theorem jsonExt_data : jsonExt.data = ['.', 'j', 's', 'o', 'n'] := rfl

theorem replaceFirstL_strip (l : List Char) (h : ('.' : Char) ∉ l) :
    replaceFirstL jsonExt.data [] (l ++ jsonExt.data) = l := by
  induction l with
  | nil => rfl
  | cons c cs ih =>
    have hc : ('.' == c) = false := by
      simp only [beq_eq_false_iff_ne, ne_eq]
      intro e
      exact h (by simp [← e])
    have hcs : ('.' : Char) ∉ cs := fun hm => h (List.mem_cons_of_mem _ hm)
    simp only [List.cons_append, replaceFirstL, jsonExt_data, isPrefixL, hc,
      Bool.false_and, Bool.false_eq_true, if_false, List.cons.injEq, true_and]
    simpa only [jsonExt_data] using ih hcs

theorem dot_not_mem_sanitized (l : List Char) :
    ('.' : Char) ∉ l.map sanChar := by
  simp only [List.mem_map, not_exists, not_and]
  intro x _ hx
  unfold sanChar at hx
  split at hx
  · rename_i hall
    rw [hx] at hall
    exact absurd hall (by decide)
  · exact absurd hx (by decide)

theorem map_fixes_of_map_eq_self {f : Char → Char} :
    ∀ l : List Char, l.map f = l → ∀ c ∈ l, f c = c := by
  intro l
  induction l with
  | nil => intro _ c hc; cases hc
  | cons a t ih =>
    intro h c hc
    simp only [List.map_cons, List.cons.injEq] at h
    rcases List.mem_cons.mp hc with hhd | htl
    · rw [hhd]; exact h.1
    · exact ih h.2 c htl

theorem sanitizeName_ne_of_badChar (sn : String) (c : Char) (hc : c ∈ sn.data)
    (hbad : isAllowedChar c = false) : sanitizeName sn ≠ sn := by
  intro he
  have hdata : sn.data.map sanChar = sn.data := congrArg String.data he
  have hfix : sanChar c = c := map_fixes_of_map_eq_self sn.data hdata c hc
  unfold sanChar at hfix
  rw [if_neg (by simp [hbad])] at hfix
  rw [← hfix] at hbad
  exact absurd hbad (by decide)

theorem getSessionFile_data (name : String) :
    (getSessionFile name).data = (sanitizeName name).data ++ jsonExt.data := rfl

theorem sanitizeName_data (name : String) :
    (sanitizeName name).data = name.data.map sanChar := rfl

theorem sessionList_after_save (r : SessionData) :
    SessionManager.list (SessionManager.save [] r) = [sanitizeName r.name] := by
  unfold SessionManager.save SessionManager.list alSet
  simp only [List.map_cons, List.map_nil, List.filter, getSessionFile_data,
    isSuffixL_append_self]
  rw [show (sanitizeName r.name).data ++ jsonExt.data
        = r.name.data.map sanChar ++ jsonExt.data from rfl]
  rw [replaceFirstL_strip _ (dot_not_mem_sanitized _)]
  rfl

theorem loginPoll_const_false_aux (isL : Nat → Bool) (h : ∀ k, isL k = false) :
    ∀ n k elapsed, maxWaitMs - elapsed ≤ n →
      loginPoll isL k elapsed =
        { result := loginTimeoutResult, savedSession := false } := by
  intro n
  induction n with
  | zero =>
    intro k elapsed hn
    rw [loginPoll]
    have : ¬ elapsed < maxWaitMs := by omega
    simp [this]
  | succ n ih =>
    intro k elapsed hn
    rw [loginPoll]
    by_cases hlt : elapsed < maxWaitMs
    · simp only [hlt, if_true, h k, Bool.false_eq_true, if_false]
      exact ih (k + 1) (elapsed + pollIntervalMs)
        (by simp only [maxWaitMs, pollIntervalMs] at *; omega)
    · simp [hlt]

theorem loginPoll_const_false (isL : Nat → Bool) (h : ∀ k, isL k = false)
    (k elapsed : Nat) :
    loginPoll isL k elapsed =
      { result := loginTimeoutResult, savedSession := false } :=
  loginPoll_const_false_aux isL h maxWaitMs k elapsed (Nat.sub_le _ _)

theorem loginPoll_saved_success_aux (isL : Nat → Bool) :
    ∀ n k elapsed, maxWaitMs - elapsed ≤ n →
      (loginPoll isL k elapsed).savedSession = true →
        (loginPoll isL k elapsed).result = { success := true, error := none } := by
  intro n
  induction n with
  | zero =>
    intro k elapsed hn
    rw [loginPoll]
    have : ¬ elapsed < maxWaitMs := by omega
    simp [this, loginTimeoutResult]
  | succ n ih =>
    intro k elapsed hn
    rw [loginPoll]
    by_cases hlt : elapsed < maxWaitMs
    · by_cases hk : isL k
      · simp [hlt, hk]
      · simp only [hlt, if_true, hk, Bool.false_eq_true, if_false]
        exact ih (k + 1) (elapsed + pollIntervalMs)
          (by simp only [maxWaitMs, pollIntervalMs] at *; omega)
    · simp [hlt, loginTimeoutResult]

theorem loginPoll_saved_success (isL : Nat → Bool) (k elapsed : Nat)
    (h : (loginPoll isL k elapsed).savedSession = true) :
    (loginPoll isL k elapsed).result = { success := true, error := none } :=
  loginPoll_saved_success_aux isL maxWaitMs k elapsed (Nat.sub_le _ _) h

/-! ## Claim theorems -/

/-- C7: For every session name, the SessionManager storage key is derived by
replacing every character outside `[A-Za-z0-9_-]` with `'_'` and then
appending `".json"`; consequently the two distinct names `"a/b"` and `"a_b"`
derive the identical storage key, so whenever two records' names derive the
same key, saving one after the other makes the later write silently
overwrite the earlier one — loading either name afterwards yields the record
saved last. -/
theorem sessionKey_sanitize_alias :
    (∀ name : String,
        (getSessionFile name).data =
          name.data.map (fun c => if isAllowedChar c then c else '_') ++
            jsonExt.data) ∧
    getSessionFile "a/b" = getSessionFile "a_b" ∧
    (∀ (fs : SessionsFS) (r1 r2 : SessionData),
        getSessionFile r1.name = getSessionFile r2.name →
        SessionManager.load (SessionManager.save (SessionManager.save fs r1) r2)
            r1.name = .ok (some r2) ∧
        SessionManager.load (SessionManager.save (SessionManager.save fs r1) r2)
            r2.name = .ok (some r2)) := by
  refine ⟨fun name => rfl, by decide, fun fs r1 r2 hkey => ⟨?_, ?_⟩⟩
  · unfold SessionManager.load SessionManager.save
    rw [hkey, alLookup_alSet_self]
  · unfold SessionManager.load SessionManager.save
    rw [alLookup_alSet_self]

/-- A session record named `"a/b"`, for the aliasing witnesses. -/
def recSlash : SessionData :=
  { name := "a/b", browserName := "b1", cookies := [], localStorage := [],
    sessionStorage := [], url := "", createdAt := "", updatedAt := "" }

/-- A session record named `"a_b"`, distinct from `recSlash`. -/
def recUnderscore : SessionData :=
  { recSlash with name := "a_b", url := "https://example.com" }

/-- Witness for C7 at the records named `"a/b"` and `"a_b"`. -/
theorem sessionKey_sanitize_alias_witness :
    getSessionFile recSlash.name = getSessionFile recUnderscore.name ∧
    SessionManager.load
        (SessionManager.save (SessionManager.save [] recSlash) recUnderscore)
        "a/b" = .ok (some recUnderscore) ∧
    SessionManager.load
        (SessionManager.save (SessionManager.save [] recSlash) recUnderscore)
        "a_b" = .ok (some recUnderscore) :=
  ⟨by decide,
    (sessionKey_sanitize_alias.2.2 [] recSlash recUnderscore (by decide)).1,
    (sessionKey_sanitize_alias.2.2 [] recSlash recUnderscore (by decide)).2⟩

/-- C9: For every name under which no session file exists, and for every name
whose stored content fails deserialization, `SessionManager.load` returns
`null`; and on every store and name whatsoever, `load` returns normally
(never throws or propagates the parse failure). -/
theorem sessionLoad_absent_or_corrupt_null (fs : SessionsFS) (name : String) :
    (alLookup fs (getSessionFile name) = none →
        SessionManager.load fs name = .ok none) ∧
    (alLookup fs (getSessionFile name) = some .corrupt →
        SessionManager.load fs name = .ok none) ∧
    ∃ r, SessionManager.load fs name = .ok r := by
  unfold SessionManager.load
  refine ⟨fun h => by rw [h], fun h => by rw [h], ?_⟩
  cases halt : alLookup fs (getSessionFile name) with
  | none => exact ⟨none, rfl⟩
  | some c => cases c with
    | corrupt => exact ⟨none, rfl⟩
    | valid s => exact ⟨some s, rfl⟩

/-- Witness for C9: a never-saved name on the empty store, and a name whose
file content is corrupt. -/
theorem sessionLoad_absent_or_corrupt_null_witness :
    SessionManager.load ([] : SessionsFS) "never-saved" = .ok none ∧
    SessionManager.load [(getSessionFile "bad", .corrupt)] "bad" = .ok none :=
  ⟨(sessionLoad_absent_or_corrupt_null [] "never-saved").1 rfl,
    (sessionLoad_absent_or_corrupt_null [(getSessionFile "bad", .corrupt)]
      "bad").2.1 (by simp [alLookup])⟩

/-- C6: `BaseSiteWorkflow.loadSession` tests membership of the raw configured
session name in the sanitized file stems returned by `listSessions()`; hence
for every configured name containing a character outside `[A-Za-z0-9_-]`,
after saving a record under exactly that name the workflow's `loadSession`
returns `false` and injects nothing (the manager is left untouched), even
though a direct `SessionManager.load` of that very name succeeds. -/
theorem loadSession_raw_name_misses_sanitized_stem
    (m : BrowserManager) (siteId sn : String) (r : SessionData)
    (hname : r.name = sn) (c : Char) (hc : c ∈ sn.data)
    (hbad : isAllowedChar c = false) :
    loadSessionW m (SessionManager.save [] r) siteId (some sn) = (m, false) ∧
    SessionManager.load (SessionManager.save [] r) sn = .ok (some r) := by
  have hne : sanitizeName sn ≠ sn := sanitizeName_ne_of_badChar sn c hc hbad
  have hlist : SessionManager.list (SessionManager.save [] r)
      = [sanitizeName sn] := by rw [sessionList_after_save, hname]
  have hsnne : (sn == "") = false := by
    simp only [beq_eq_false_iff_ne, ne_eq]
    intro h0
    rw [h0] at hc
    cases hc
  constructor
  · unfold loadSessionW
    simp only [hsnne, hlist, List.contains]
    simp
    exact fun h => absurd h.symm hne
  · unfold SessionManager.load SessionManager.save
    rw [hname, alLookup_alSet_self]

/-- The empty browser registry. -/
def emptyBM : BrowserManager := ⟨[]⟩

/-- Witness for C6 at the configured name `"a/b"` (containing `'/'`). -/
theorem loadSession_raw_name_misses_sanitized_stem_witness :
    recSlash.name = "a/b" ∧ ('/' : Char) ∈ "a/b".data ∧
    isAllowedChar '/' = false ∧
    loadSessionW emptyBM (SessionManager.save [] recSlash) "pinnacle"
      (some "a/b") = (emptyBM, false) ∧
    SessionManager.load (SessionManager.save [] recSlash) "a/b"
      = .ok (some recSlash) :=
  ⟨rfl, by decide, by decide,
    (loadSession_raw_name_misses_sanitized_stem emptyBM "pinnacle" "a/b"
      recSlash rfl '/' (by decide) (by decide)).1,
    (loadSession_raw_name_misses_sanitized_stem emptyBM "pinnacle" "a/b"
      recSlash rfl '/' (by decide) (by decide)).2⟩

/-- The instance state right after a successful `create(cfg)`. -/
def launchedInstance (cfg : BrowserInstanceConfig) (closeFails : Bool) :
    BrowserInstance :=
  { name := cfg.name
    headless := cfg.headless.getD false
    status := .ready
    browserLive := true
    closeFails := closeFails
    injected := [] }

/-- C2: `create(config)` with an already-registered `config.name` fails with
the duplicate-name error and leaves the registry (hence the existing
instance) unchanged; when the name is fresh but the engine launch throws,
the error propagates and the registry is again unchanged — in particular no
entry exists under `config.name`; only when the launch succeeds is the new
instance appended to the registry. -/
theorem create_duplicate_or_launch_gate (m : BrowserManager)
    (cfg : BrowserInstanceConfig) (engineOk closeFails : Bool) :
    (m.has cfg.name = true →
        m.create cfg engineOk closeFails =
          (m, .error ("Browser instance \"" ++ cfg.name ++
            "\" already exists"))) ∧
    (m.has cfg.name = false → engineOk = false →
        m.create cfg engineOk closeFails =
          (m, .error "engine launch failed")) ∧
    (m.has cfg.name = false → engineOk = true →
        m.create cfg engineOk closeFails =
          (⟨m.instances ++ [(cfg.name, launchedInstance cfg closeFails)]⟩,
            .ok (launchedInstance cfg closeFails))) := by
  refine ⟨fun hdup => ?_, fun hfresh heng => ?_, fun hfresh heng => ?_⟩
  · simp [BrowserManager.create, hdup]
  · simp [BrowserManager.create, BrowserInstance.make, BrowserInstance.launch,
      hfresh, heng]
  · simp [BrowserManager.create, BrowserInstance.make, BrowserInstance.launch,
      hfresh, heng, launchedInstance]

/-- A registered instance for the duplicate-name witness. -/
def existingInstance : BrowserInstance :=
  { name := "dup", headless := false, status := .ready, browserLive := true,
    closeFails := false, injected := [] }

/-- A registry already holding the name `"dup"`. -/
def registryWithDup : BrowserManager := ⟨[("dup", existingInstance)]⟩

/-- Witness for C2: a duplicate name is rejected with the registry unchanged,
and a fresh name whose launch fails leaves the registry unchanged. -/
theorem create_duplicate_or_launch_gate_witness :
    registryWithDup.has "dup" = true ∧
    registryWithDup.create { name := "dup" } true false =
      (registryWithDup,
        .error ("Browser instance \"" ++ "dup" ++ "\" already exists")) ∧
    registryWithDup.has "fresh" = false ∧
    registryWithDup.create { name := "fresh" } false false =
      (registryWithDup, .error "engine launch failed") :=
  ⟨rfl,
    (create_duplicate_or_launch_gate registryWithDup { name := "dup" }
      true false).1 rfl,
    rfl,
    (create_duplicate_or_launch_gate registryWithDup { name := "fresh" }
      false false).2.1 rfl rfl⟩

/-- C8: for a fresh name and a session name with no stored file,
`createWithSession` succeeds with the freshly launched instance appended to
the registry, the instance is `ready`, and nothing was injected into it —
the missing session is silent. -/
theorem createWithSession_missing_session_silent (m : BrowserManager)
    (fs : SessionsFS) (cfg : BrowserInstanceConfig) (sessionName : String)
    (closeFails : Bool) (hfresh : m.has cfg.name = false)
    (hnosess : alLookup fs (getSessionFile sessionName) = none) :
    m.createWithSession fs cfg sessionName true closeFails =
      (⟨m.instances ++ [(cfg.name, launchedInstance cfg closeFails)]⟩,
        .ok (launchedInstance cfg closeFails)) ∧
    (launchedInstance cfg closeFails).status = .ready ∧
    (launchedInstance cfg closeFails).injected = [] := by
  refine ⟨?_, rfl, rfl⟩
  simp [BrowserManager.createWithSession, BrowserManager.create,
    BrowserInstance.make, BrowserInstance.launch, SessionManager.load,
    hfresh, hnosess, launchedInstance]

/-- Witness for C8: an empty registry, an empty session store and the session
name `"nonexistent"`. -/
theorem createWithSession_missing_session_silent_witness :
    emptyBM.has "site-a" = false ∧
    alLookup ([] : SessionsFS) (getSessionFile "nonexistent") = none ∧
    emptyBM.createWithSession [] { name := "site-a" } "nonexistent" true false =
      (⟨[("site-a", launchedInstance { name := "site-a" } false)]⟩,
        .ok (launchedInstance { name := "site-a" } false)) ∧
    (launchedInstance { name := "site-a" } false).injected = [] :=
  ⟨rfl, rfl,
    (createWithSession_missing_session_silent emptyBM [] { name := "site-a" }
      "nonexistent" false rfl rfl).1,
    (createWithSession_missing_session_silent emptyBM [] { name := "site-a" }
      "nonexistent" false rfl rfl).2.2⟩

/-- A launched instance in `ready` status whose engine close succeeds. -/
def readyInstance : BrowserInstance :=
  { name := "b1", headless := false, status := .ready, browserLive := true,
    closeFails := false, injected := [] }

/-- C4 counterexample: calling `launch()` on an already-launched (ready)
instance throws, with either engine outcome, but the status stays `ready` —
it is not set to `error` as the claim states. -/
theorem launch_already_launched_counterexample :
    (readyInstance.launch true).2 =
      .error "Browser \"b1\" is already launched" ∧
    (readyInstance.launch false).2 =
      .error "Browser \"b1\" is already launched" ∧
    (readyInstance.launch true).1.status = .ready ∧
    (readyInstance.launch false).1.status = .ready ∧
    BrowserStatus.ready ≠ BrowserStatus.error :=
  ⟨rfl, rfl, rfl, rfl, by decide⟩

/-- C4 amended: `launch()` on an already-launched instance throws the
already-launched error to the caller with the whole state — in particular
the status — unchanged; an engine launch failure on a not-yet-launched
instance sets the status to `error` and rethrows; a successful engine launch
ends `ready`. -/
theorem launch_amended (i : BrowserInstance) (engineOk : Bool) :
    (i.browserLive = true →
        i.launch engineOk =
          (i, .error ("Browser \"" ++ i.name ++ "\" is already launched"))) ∧
    (i.browserLive = false → engineOk = false →
        i.launch engineOk =
          ({ i with status := .error }, .error "engine launch failed")) ∧
    (i.browserLive = false → engineOk = true →
        i.launch engineOk =
          ({ i with browserLive := true, status := .ready }, .ok ())) := by
  refine ⟨fun h => ?_, fun h he => ?_, fun h he => ?_⟩
  · simp [BrowserInstance.launch, h]
  · simp [BrowserInstance.launch, h, he]
  · simp [BrowserInstance.launch, h, he]

/-- Witness for C4 amended: the ready instance throws with status untouched,
and a closed instance whose engine launch fails ends in `error`. -/
theorem launch_amended_witness :
    readyInstance.browserLive = true ∧
    readyInstance.launch true =
      (readyInstance,
        .error ("Browser \"" ++ readyInstance.name ++ "\" is already launched")) ∧
    (BrowserInstance.make { name := "b9" } false).browserLive = false ∧
    (BrowserInstance.make { name := "b9" } false).launch false =
      ({ BrowserInstance.make { name := "b9" } false with status := .error },
        .error "engine launch failed") :=
  ⟨rfl, (launch_amended readyInstance true).1 rfl, rfl,
    (launch_amended (BrowserInstance.make { name := "b9" } false) false).2.1
      rfl rfl⟩

/-- A second launched instance whose engine close succeeds. -/
def readyInstanceB : BrowserInstance :=
  { readyInstance with name := "b3" }

/-- A launched instance whose engine `browser.close()` rejects. -/
def failingCloseInstance : BrowserInstance :=
  { readyInstance with name := "b2", closeFails := true }

/-- Three launched instances where the second one's close will throw. -/
def registryWithFailingClose : BrowserManager :=
  ⟨[("b1", readyInstance), ("b2", failingCloseInstance),
    ("b3", readyInstanceB)]⟩

/-- C1 counterexample: on three launched instances where instance #2's close
throws, `closeAll()` rejects and leaves all three entries registered — not
zero — and instance #2 stays `ready` rather than reaching `closed` (while
instances #1 and #3 do close). -/
theorem closeAll_counterexample :
    exceptOk (registryWithFailingClose.closeAll).2 = false ∧
    (registryWithFailingClose.closeAll).1.instances.length = 3 ∧
    (registryWithFailingClose.closeAll).1.instances.map
      (fun p => p.2.status) = [.closed, .ready, .closed] ∧
    BrowserStatus.ready ≠ BrowserStatus.closed := by decide

theorem close_ok_of_not_failing (i : BrowserInstance)
    (h : i.browserLive = true → i.closeFails = false) :
    exceptOk (i.close).2 = true := by
  unfold BrowserInstance.close
  by_cases hl : i.browserLive
  · simp [hl, h hl, exceptOk]
  · simp [hl, exceptOk]

theorem close_reaches_closed (i : BrowserInstance) (h1 : i.browserLive = true)
    (h2 : i.closeFails = false) : (i.close).1.status = .closed := by
  simp [BrowserInstance.close, h1, h2]

theorem close_failing_unchanged (i : BrowserInstance)
    (h : i.closeFails = true) : (i.close).1 = i := by
  unfold BrowserInstance.close
  by_cases hl : i.browserLive
  · simp [hl, h]
  · simp [hl]

/-- C1 amended: `closeAll()` issues a close for every registered instance, so
every launched instance whose engine close succeeds reaches `closed`
independently of any other instance's failure; when every close succeeds,
`closeAll` resolves with the registry cleared (zero instances registered);
but when any instance's close throws, `closeAll` rejects and the registry is
NOT cleared — every entry remains registered at its per-instance post-close
state, the failing instance unchanged (never `closed`). -/
theorem closeAll_amended (m : BrowserManager) :
    ((∀ p ∈ m.instances, p.2.browserLive = true → p.2.closeFails = false) →
        m.closeAll = (⟨[]⟩, .ok ())) ∧
    (∀ p ∈ m.instances, p.2.browserLive = true → p.2.closeFails = false →
        (p.2.close).1.status = .closed) ∧
    (∀ p ∈ m.instances, p.2.closeFails = true → (p.2.close).1 = p.2) ∧
    ((∃ p ∈ m.instances, p.2.browserLive = true ∧ p.2.closeFails = true) →
        exceptOk (m.closeAll).2 = false ∧
        (m.closeAll).1.instances =
          m.instances.map (fun p => (p.1, (p.2.close).1))) := by
  refine ⟨fun h => ?_, fun p hp h1 h2 => close_reaches_closed p.2 h1 h2,
    fun p hp h => close_failing_unchanged p.2 h, fun hex => ?_⟩
  · have hall : (m.instances.map (fun p => (p.1, p.2.close))).all
        (fun p => exceptOk p.2.2) = true := by
      rw [List.all_eq_true]
      intro x hx
      rw [List.mem_map] at hx
      obtain ⟨p, hp, rfl⟩ := hx
      exact close_ok_of_not_failing p.2 (h p hp)
    simp [BrowserManager.closeAll, hall]
  · obtain ⟨p, hp, h1, h2⟩ := hex
    have hfail : exceptOk ((p.1, p.2.close)).2.2 = false := by
      simp [BrowserInstance.close, h1, h2, exceptOk]
    have hall : (m.instances.map (fun q => (q.1, q.2.close))).all
        (fun q => exceptOk q.2.2) = false := by
      rw [← Bool.not_eq_true, List.all_eq_true]
      intro hcontra
      have := hcontra _ (List.mem_map_of_mem (fun q => (q.1, q.2.close)) hp)
      rw [hfail] at this
      cases this
    simp only [BrowserManager.closeAll, hall, Bool.false_eq_true, if_false]
    refine ⟨rfl, ?_⟩
    rw [List.map_map]
    rfl

/-- A registry of two launched instances whose closes both succeed. -/
def registryAllGood : BrowserManager :=
  ⟨[("b1", readyInstance), ("b3", readyInstanceB)]⟩

/-- Witness for C1 amended: with every close succeeding, `closeAll` resolves
and clears the registry. -/
theorem closeAll_amended_witness :
    (∀ p ∈ registryAllGood.instances,
        p.2.browserLive = true → p.2.closeFails = false) ∧
    registryAllGood.closeAll = (⟨[]⟩, .ok ()) :=
  ⟨by decide, (closeAll_amended registryAllGood).1 (by decide)⟩

/-- C3: against a workflow whose `isLoggedIn()` always answers false, an
initialized `login()` terminates (the model is a total function) and returns
— rather than throws — a `success := false` result carrying the timeout
error message, without ever saving a session; the poll interval is 2 s and
the ceiling 5 min of (model) wall-clock time. -/
theorem login_always_false_times_out (isL : Nat → Bool)
    (h : ∀ k, isL k = false) :
    login true isL =
      .ok { result := loginTimeoutResult, savedSession := false } ∧
    loginTimeoutResult.success = false ∧
    loginTimeoutResult.error =
      some "Login timeout - user did not complete login within 5 minutes" ∧
    pollIntervalMs = 2000 ∧ maxWaitMs = 5 * 60 * 1000 := by
  refine ⟨?_, rfl, rfl, rfl, rfl⟩
  unfold login
  rw [if_pos rfl, h 0]
  simp only [Bool.false_eq_true, if_false]
  rw [loginPoll_const_false isL h]

/-- Witness for C3 at the constantly-false predicate. -/
theorem login_always_false_times_out_witness :
    login true (fun _ => false) =
      .ok { result := loginTimeoutResult, savedSession := false } ∧
    loginTimeoutResult.success = false :=
  ⟨(login_always_false_times_out (fun _ => false) (fun _ => rfl)).1,
    (login_always_false_times_out (fun _ => false) (fun _ => rfl)).2.1⟩

/-- C10: when the very first `isLoggedIn()` check (before the polling loop)
is true, `login()` returns immediate success with `saveSession()` never
invoked; and whenever a finished `login()` did invoke `saveSession()`, the
initial check was false and the success came from a true reading inside the
polling loop — the session is persisted automatically only there. -/
theorem login_initial_success_skips_save (isL : Nat → Bool)
    (o : LoginOutcome) (h : login true isL = .ok o) :
    (isL 0 = true →
        o = { result := { success := true }, savedSession := false }) ∧
    (o.savedSession = true →
        isL 0 = false ∧ o.result = { success := true, error := none }) := by
  unfold login at h
  rw [if_pos rfl] at h
  by_cases h0 : isL 0 = true
  · rw [if_pos h0] at h
    injection h with h2
    subst h2
    exact ⟨fun _ => rfl, fun hs => Bool.noConfusion hs⟩
  · rw [if_neg h0] at h
    injection h with h2
    refine ⟨fun hc => absurd hc h0, fun hs => ⟨by simp [h0], ?_⟩⟩
    rw [← h2] at hs ⊢
    exact loginPoll_saved_success isL 1 0 hs

/-- Witness for C10: a predicate false at the initial check and true at the
first in-loop poll — the result is success with the session saved, and the
theorem instantiates to show the save came from inside the loop. -/
theorem login_initial_success_skips_save_witness :
    login true (fun k => k == 1) =
      .ok { result := { success := true }, savedSession := true } ∧
    (fun k : Nat => k == 1) 0 = false ∧
    ({ result := { success := true }, savedSession := true } :
      LoginOutcome).result = { success := true, error := none } := by
  have hrun : login true (fun k => k == 1) =
      .ok { result := { success := true }, savedSession := true } := by
    unfold login
    rw [if_pos rfl, if_neg (by decide)]
    rw [loginPoll]
    rw [if_pos (by norm_num [maxWaitMs]), if_pos (by decide)]
  exact ⟨hrun,
    (login_initial_success_skips_save (fun k => k == 1) _ hrun).2 rfl |>.1,
    (login_initial_success_skips_save (fun k => k == 1) _ hrun).2 rfl |>.2⟩

/-- C5: `getWorkflow(siteId)` returns the cached workflow when one exists;
otherwise it fails with the "no configuration" error when no `SiteConfig` is
stored for `siteId`; otherwise it resolves the class by exact match of
`siteId` against the registered type tags, falling back to the first
registered tag (in registration iteration order) that is a substring of
`siteId`, failing with the "no workflow registered" error when neither
matches; on success the new instance is cached under `siteId`, so a repeated
call returns the very same instance. -/
theorem getWorkflow_resolution (wm : WorkflowManager) (siteId : String) :
    (∀ inst, alLookup wm.instances siteId = some inst →
        wm.getWorkflow siteId = (wm, .ok inst)) ∧
    (alLookup wm.instances siteId = none →
      alLookup wm.configs siteId = none →
        wm.getWorkflow siteId = (wm, .error (noConfigMsg siteId))) ∧
    (∀ cfg, alLookup wm.instances siteId = none →
      alLookup wm.configs siteId = some cfg →
      alLookup wm.registry siteId = none →
      wm.registry.find? (fun p => strContains siteId p.1) = none →
        wm.getWorkflow siteId =
          (wm, .error (noWorkflowMsg siteId wm.registry))) ∧
    (∀ cfg cls, alLookup wm.instances siteId = none →
      alLookup wm.configs siteId = some cfg →
      alLookup wm.registry siteId = some cls →
        wm.getWorkflow siteId =
          ({ wm with instances :=
              wm.instances ++ [(siteId, ⟨cls, cfg⟩)] }, .ok ⟨cls, cfg⟩)) ∧
    (∀ cfg t cls, alLookup wm.instances siteId = none →
      alLookup wm.configs siteId = some cfg →
      alLookup wm.registry siteId = none →
      wm.registry.find? (fun p => strContains siteId p.1) = some (t, cls) →
        wm.getWorkflow siteId =
          ({ wm with instances :=
              wm.instances ++ [(siteId, ⟨cls, cfg⟩)] }, .ok ⟨cls, cfg⟩)) ∧
    (∀ wm' inst, wm.getWorkflow siteId = (wm', .ok inst) →
        wm'.getWorkflow siteId = (wm', .ok inst)) := by
  refine ⟨fun inst hcache => ?_, fun hnc hncf => ?_,
    fun cfg hnc hcf hreg hfind => ?_, fun cfg cls hnc hcf hreg => ?_,
    fun cfg t cls hnc hcf hreg hfind => ?_, fun wm' inst hrun => ?_⟩
  · simp [WorkflowManager.getWorkflow, hcache]
  · simp [WorkflowManager.getWorkflow, hnc, hncf]
  · simp [WorkflowManager.getWorkflow, resolveClass, hnc, hcf, hreg, hfind]
  · simp [WorkflowManager.getWorkflow, resolveClass, hnc, hcf, hreg]
  · simp [WorkflowManager.getWorkflow, resolveClass, hnc, hcf, hreg, hfind]
  · unfold WorkflowManager.getWorkflow at hrun
    cases hc : alLookup wm.instances siteId with
    | some i0 =>
      rw [hc] at hrun
      rw [Prod.mk.injEq] at hrun
      obtain ⟨h1, h2⟩ := hrun
      injection h2 with h2
      subst h1
      subst h2
      simp [WorkflowManager.getWorkflow, hc]
    | none =>
      rw [hc] at hrun
      cases hcf : alLookup wm.configs siteId with
      | none =>
        rw [hcf] at hrun
        rw [Prod.mk.injEq] at hrun
        exact Except.noConfusion hrun.2
      | some cfg =>
        rw [hcf] at hrun
        cases hcls : resolveClass wm siteId with
        | none =>
          rw [hcls] at hrun
          rw [Prod.mk.injEq] at hrun
          exact Except.noConfusion hrun.2
        | some cls =>
          rw [hcls] at hrun
          rw [Prod.mk.injEq] at hrun
          obtain ⟨h1, h2⟩ := hrun
          injection h2 with h2
          subst h2
          subst h1
          have hlook : alLookup
              (wm.instances ++
                [(siteId, ({ classId := cls, config := cfg } : WorkflowInst))])
              siteId = some { classId := cls, config := cfg } :=
            alLookup_append_singleton _ _ _ hc
          simp [WorkflowManager.getWorkflow, hlook]

/-- A site config for the resolution witness. -/
def pinnacleEuConfig : SiteConfig :=
  { id := "pinnacle-eu", displayName := "Pinnacle EU",
    baseUrl := "https://pinnacle.example" }

/-- A manager with one registered type tag `"pinnacle"` (class 7) and one
stored config whose id `"pinnacle-eu"` only matches by substring. -/
def wmSubstring : WorkflowManager :=
  { registry := [("pinnacle", 7)]
    configs := [("pinnacle-eu", pinnacleEuConfig)]
    instances := [] }

/-- Witness for C5: the substring fallback resolves `"pinnacle-eu"` to the
class registered under `"pinnacle"`, caches it, and the repeated call
returns the same instance. -/
theorem getWorkflow_resolution_witness :
    wmSubstring.getWorkflow "pinnacle-eu" =
      ({ wmSubstring with instances :=
          [("pinnacle-eu", ⟨7, pinnacleEuConfig⟩)] }, .ok ⟨7, pinnacleEuConfig⟩) ∧
    ({ wmSubstring with instances :=
        [("pinnacle-eu", ⟨7, pinnacleEuConfig⟩)] } :
      WorkflowManager).getWorkflow "pinnacle-eu" =
      ({ wmSubstring with instances :=
          [("pinnacle-eu", ⟨7, pinnacleEuConfig⟩)] }, .ok ⟨7, pinnacleEuConfig⟩) := by
  have h1 : wmSubstring.getWorkflow "pinnacle-eu" =
      ({ wmSubstring with instances :=
          [("pinnacle-eu", ⟨7, pinnacleEuConfig⟩)] }, .ok ⟨7, pinnacleEuConfig⟩) := by
    have := (getWorkflow_resolution wmSubstring "pinnacle-eu").2.2.2.2.1
      pinnacleEuConfig "pinnacle" 7 rfl rfl rfl (by decide)
    simpa [wmSubstring] using this
  exact ⟨h1,
    (getWorkflow_resolution wmSubstring "pinnacle-eu").2.2.2.2.2 _ _ h1⟩
